import Mathlib

/-!
Verification of the svg_batch_exporter script (svg_batch_exporter.py).

This development is a shallow embedding of the script's core logic:
the format classifier (_is_inkscape_format / _is_pillow_format and the
if/elif/else routing in _convert_via_inkscape), the per-file parameter
resolution performed by export_svg (the param_blocks precedence loop
and the curated_param size normalization), the command-vector
construction and the temporary-artifact lifecycle of
_convert_via_inkscape, the batch loop of export_svg, and the
command-line prelude of the module's main block.

Python values appearing in rule blocks are modelled by the PyVal type;
dictionaries holding the three recognized keys are modelled by Block;
the JSON rule document is modelled as an association list.  Python's
in-place dictionary mutation (curated_param assigns data["size"] = None)
is modelled by explicit state passing: the functions return the rule
document as it stands after the operation.  Python's str.lower method is
modelled on the ASCII range (the only range exercised by the format
tables) by mapping Char.toLower over the characters.
-/

namespace SvgBatchExporter

/-- Export formats supported by Inkscape (INKSCAPE_FORMATS in the script).
The pdf, ps and eps entries cannot be exported with custom width/height. -/
def INKSCAPE_FORMATS : List String := ["png", "pdf", "ps", "eps"]

/-- Export formats supported by the Pillow library (PIL_FORMATS in the script). -/
def PIL_FORMATS : List String := ["jpeg", "jpg", "bmp", "gif", "im", "pcx", "tiff"]

/-- Model of Python's str.lower restricted to ASCII: map Char.toLower
(which lowers exactly the basic latin letters) over the characters. -/
def pyLower (s : String) : String := String.mk (s.data.map Char.toLower)

/-- The check _is_inkscape_format: scan INKSCAPE_FORMATS and compare lowercased
forms; the loop returns True on the first match, False after the loop. -/
def _is_inkscape_format (in_form : String) : Bool :=
  INKSCAPE_FORMATS.any fun frm => pyLower in_form == pyLower frm

/-- The check _is_pillow_format: scan PIL_FORMATS and compare lowercased forms. -/
def _is_pillow_format (in_form : String) : Bool :=
  PIL_FORMATS.any fun frm => pyLower in_form == pyLower frm

/-- The three-way routing outcome of _convert_via_inkscape's
if/elif/else chain on the requested format. -/
inductive FormatClass where
  | native
  | relay
  | unsupported
deriving DecidableEq, Repr

/-- The format routing decision of _convert_via_inkscape:
if _is_inkscape_format then the native path, elif _is_pillow_format then
the Pillow relay path, else the unsupported-format error path. -/
def classify (f : String) : FormatClass :=
  if _is_inkscape_format f then FormatClass.native
  else if _is_pillow_format f then FormatClass.relay
  else FormatClass.unsupported

/-- Characters packed from a scalar value below the surrogate range
unpack to the same value. -/
theorem toNat_ofNat_of_lt {n : Nat} (h : n < 55296) : (Char.ofNat n).toNat = n := by
  have hv : n.isValidChar := Or.inl h
  rw [Char.ofNat, dif_pos hv]
  rfl

/-- Char.toLower is idempotent: lowering an already-lowered character
changes nothing, because the lowered image of the upper range lies
outside the upper range. -/
theorem toLower_toLower (c : Char) : Char.toLower (Char.toLower c) = Char.toLower c := by
  by_cases h : c.toNat ≥ 65 ∧ c.toNat ≤ 90
  · have h1 : Char.toLower c = Char.ofNat (c.toNat + 32) := by
      simp [Char.toLower, h]
    have hlt : c.toNat + 32 < 55296 := by omega
    have hval : (Char.ofNat (c.toNat + 32)).toNat = c.toNat + 32 :=
      toNat_ofNat_of_lt hlt
    rw [h1]
    have h2 : ¬((Char.ofNat (c.toNat + 32)).toNat ≥ 65 ∧
        (Char.ofNat (c.toNat + 32)).toNat ≤ 90) := by
      rw [hval]; omega
    simp [Char.toLower, h2]
  · have h1 : Char.toLower c = c := by
      simp [Char.toLower, h]
    rw [h1, h1]

/-- The ASCII model of str.lower is idempotent. -/
theorem pyLower_idem (s : String) : pyLower (pyLower s) = pyLower s := by
  simp [pyLower, List.map_map, Function.comp_def, toLower_toLower]

/-- The check _is_inkscape_format gives the same answer on a string and on its
lowercased form. -/
theorem _is_inkscape_format_lower (f : String) :
    _is_inkscape_format (pyLower f) = _is_inkscape_format f := by
  simp [_is_inkscape_format, pyLower_idem]

/-- The check _is_pillow_format gives the same answer on a string and on its
lowercased form. -/
theorem _is_pillow_format_lower (f : String) :
    _is_pillow_format (pyLower f) = _is_pillow_format f := by
  simp [_is_pillow_format, pyLower_idem]

/-- C7: the format classification is total and exclusive — every string
is routed to exactly one of native, relay, unsupported (the codomain is
the three-constructor FormatClass and classify is a total function) —
and classification is case-insensitive: classifying the lowercased form
of a string yields the same class as classifying the string itself. -/
theorem classify_total_and_case_insensitive (f : String) :
    (classify f = FormatClass.native ∨ classify f = FormatClass.relay ∨
      classify f = FormatClass.unsupported)
    ∧ classify (pyLower f) = classify f := by
  constructor
  · unfold classify
    by_cases h1 : _is_inkscape_format f
    · simp [h1]
    · by_cases h2 : _is_pillow_format f <;> simp [h1, h2]
  · unfold classify
    rw [_is_inkscape_format_lower, _is_pillow_format_lower]

/-! ## Rule blocks and parameter resolution (export_svg) -/

/-- A Python value as it can occur in a rule block: None, a string, a
two-element width/height list (its components kept in their str()
rendering, which is how they reach the command vector), or a boolean. -/
inductive PyVal where
  | none
  | str (s : String)
  | pair (w h : String)
  | bool (b : Bool)
deriving DecidableEq, Repr

/-- Python truthiness of a rule-block value: None is falsy, a string is
truthy iff non-empty, a two-element list is truthy, a bool is itself. -/
def PyVal.truthy : PyVal → Bool
  | PyVal.none => false
  | PyVal.str s => s ≠ ""
  | PyVal.pair _ _ => true
  | PyVal.bool b => b

/-- The three parameter names scanned by export_svg's resolution loop
(params = ["size", "format", "drawing_only"]). -/
inductive Field where
  | size
  | format
  | drawing_only
deriving DecidableEq, Repr

/-- A rule block: a dictionary holding any subset of the three
recognized keys.  A field of Option.none models an absent key; a field
of some PyVal.none models a key present with value None (these are
distinguishable in Python by the `in` operator, and the resolution loop
tests key presence, not truthiness). -/
structure Block where
  size : Option PyVal := Option.none
  format : Option PyVal := Option.none
  drawing_only : Option PyVal := Option.none
deriving DecidableEq, Repr

/-- Dictionary-style key lookup on a block. -/
def Block.get (b : Block) : Field → Option PyVal
  | Field.size => b.size
  | Field.format => b.format
  | Field.drawing_only => b.drawing_only

/-- The empty block ({} in the script). -/
def emptyBlock : Block := {}

/-- The built-in default parameter block of export_svg:
size = None, format = "png", drawing_only = True.  All three keys are
present (size is present with value None). -/
def def_param : Block :=
  { size := some PyVal.none
    format := some (PyVal.str "png")
    drawing_only := some (PyVal.bool true) }

/-- curated_param: if the block has a size key whose value equals the
string "default", replace that value with None; otherwise return the
block unchanged.  (In the script this assignment mutates the dictionary
in place; the returned block models the dictionary after the call.) -/
def curated_param (data : Block) : Block :=
  match data.size with
  | some v => if v = PyVal.str "default" then { data with size := some PyVal.none } else data
  | Option.none => data

/-- The inner loop of export_svg's resolution:
for block in param_blocks: if param in block: take block[param]; break.
Returns the value from the first block in which the key is present, or
none if no block defines it (in which case the script would never have
written final_param[param]). -/
def lookupFirst (param : Field) : List Block → Option PyVal
  | [] => Option.none
  | block :: rest =>
    match block.get param with
    | some v => some v
    | Option.none => lookupFirst param rest

/-- The supplied parameter block built by export_svg from its size,
file_format and drawing_only arguments: each key is set iff the
corresponding argument is not None. -/
def buildSupplied (size : Option (String × String)) (file_format : Option String)
    (drawing_only : Option Bool) : Block :=
  { size := size.map fun p => PyVal.pair p.1 p.2
    format := file_format.map PyVal.str
    drawing_only := drawing_only.map PyVal.bool }

/-- C1: for every per-file block, supplied block and global block (the
default block being the built-in def_param, which defines all three
fields), and for each field independently, the value resolved by the
precedence loop equals the value of the highest-precedence layer in
which that field is present, and the resolved record has all three
fields populated. -/
theorem resolved_field_is_highest_precedence (l s g : Block) (p : Field) :
    lookupFirst p [l, s, g, def_param] =
      (if (l.get p).isSome then l.get p
       else if (s.get p).isSome then s.get p
       else if (g.get p).isSome then g.get p
       else def_param.get p)
    ∧ (lookupFirst p [l, s, g, def_param]).isSome := by
  have hdef : ∃ v, def_param.get p = some v := by
    cases p <;> exact ⟨_, rfl⟩
  obtain ⟨v, hv⟩ := hdef
  constructor
  · cases h1 : l.get p <;> cases h2 : s.get p <;> cases h3 : g.get p <;>
      simp [lookupFirst, h1, h2, h3, hv]
  · cases h1 : l.get p <;> cases h2 : s.get p <;> cases h3 : g.get p <;>
      simp [lookupFirst, h1, h2, h3, hv]

/-- Overwrite the size entry of a block (set it, or delete it with
Option.none). -/
def setSize (b : Block) (v : Option PyVal) : Block := { b with size := v }

/-- curated_param only ever touches the size entry. -/
theorem curated_param_get_of_ne_size (b : Block) (p : Field) (hp : p ≠ Field.size) :
    (curated_param b).get p = b.get p := by
  unfold curated_param
  cases hb : b.size with
  | none => rfl
  | some v =>
    by_cases hv : v = PyVal.str "default"
    · cases p with
      | size => exact absurd rfl hp
      | format => simp [hv, Block.get]
      | drawing_only => simp [hv, Block.get]
    · simp [hv]

/-- A block without the "default" size sentinel passes through
curated_param unchanged. -/
theorem curated_param_eq_self {b : Block} (h : b.size ≠ some (PyVal.str "default")) :
    curated_param b = b := by
  unfold curated_param
  cases hb : b.size with
  | none => rfl
  | some v =>
    have hv : v ≠ PyVal.str "default" := by
      intro he; exact h (by rw [hb, he])
    simp [hv]

/-- C3 counterexample: with a supplied (command-line) layer defining
size = [50, 50], a rule block whose size is the string "default" does
not resolve to the same Settings Record as the same block with the size
key absent: curated_param turns "default" into a present None entry,
which wins the precedence scan and yields size None, while the absent
key falls through to the supplied [50, 50]. -/
theorem size_default_differs_from_absent_counterexample :
    lookupFirst Field.size
        [curated_param { size := some (PyVal.str "default") },
         buildSupplied (some ("50", "50")) Option.none Option.none, emptyBlock, def_param]
      = some PyVal.none
    ∧ lookupFirst Field.size
        [curated_param ({} : Block),
         buildSupplied (some ("50", "50")) Option.none Option.none, emptyBlock, def_param]
      = some (PyVal.pair "50" "50")
    ∧ some PyVal.none ≠ some (PyVal.pair "50" "50") := by
  decide

/-- C3 amended: a rule block whose size is the literal string "default"
resolves exactly as the same block with size absent, provided neither
the supplied layer nor the global layer defines size; unconditionally,
the "default" sentinel forces the resolved size to None (an explicit
opt-out that overrides any supplied or global size). -/
theorem size_default_is_opt_out (l s g : Block)
    (hs : s.get Field.size = Option.none) (hg : g.get Field.size = Option.none) :
    (∀ p : Field,
      lookupFirst p [curated_param (setSize l (some (PyVal.str "default"))), s, g, def_param]
        = lookupFirst p [curated_param (setSize l Option.none), s, g, def_param])
    ∧ (∀ s' g' : Block,
      lookupFirst Field.size
          [curated_param (setSize l (some (PyVal.str "default"))), s', g', def_param]
        = some PyVal.none) := by
  have hdef : (curated_param (setSize l (some (PyVal.str "default")))).get Field.size
      = some PyVal.none := by
    simp [curated_param, setSize, Block.get]
  have habs : (curated_param (setSize l Option.none)).get Field.size = Option.none := by
    simp [curated_param, setSize, Block.get]
  constructor
  · intro p
    by_cases hp : p = Field.size
    · subst hp
      have hdef' : (curated_param (setSize l (some (PyVal.str "default")))).size
          = some PyVal.none := hdef
      have habs' : (curated_param (setSize l Option.none)).size = Option.none := habs
      have hs' : s.size = Option.none := hs
      have hg' : g.size = Option.none := hg
      simp [lookupFirst, Block.get, hdef', habs', hs', hg', def_param]
    · have h1 := curated_param_get_of_ne_size (setSize l (some (PyVal.str "default"))) p hp
      have h2 := curated_param_get_of_ne_size (setSize l Option.none) p hp
      have h3 : (setSize l (some (PyVal.str "default"))).get p = (setSize l Option.none).get p := by
        cases p with
        | size => exact absurd rfl hp
        | format => rfl
        | drawing_only => rfl
      simp only [lookupFirst, h1, h2, h3]
  · intro s' g'
    simp [lookupFirst, hdef]

/-- Witness for size_default_is_opt_out at concrete blocks. -/
theorem size_default_is_opt_out_witness :
    (emptyBlock.get Field.size = Option.none)
    ∧ (lookupFirst Field.size
        [curated_param (setSize { format := some (PyVal.str "gif") } (some (PyVal.str "default"))),
         buildSupplied (some ("9", "9")) Option.none Option.none, emptyBlock, def_param]
      = some PyVal.none) :=
  ⟨by decide,
   (size_default_is_opt_out { format := some (PyVal.str "gif") } emptyBlock emptyBlock
      (by decide) (by decide)).2
     (buildSupplied (some ("9", "9")) Option.none Option.none) emptyBlock⟩

/-! ## The conversion routine (_convert_via_inkscape) -/

/-- The collaborating environment of a conversion: whether the Pillow
library can be imported, whether the Pillow save step succeeds (save
raising models a relay I/O failure), the temporary directory returned
by tempfile.gettempdir(), and the resolved Inkscape executable path
used when the module is run from the command line. -/
structure Env where
  pilAvailable : Bool
  saveOk : Bool
  tempDir : String
  inkscapePath : String
deriving DecidableEq, Repr

/-- os.sep on the platform the script runs on. -/
def osSep : String := "/"

/-- How a call of _convert_via_inkscape ends: a normal return, a call of
sys.exit with the given status (raised by _report_error), or an uncaught
exception propagating out (the Pillow save step raising). -/
inductive ConvOutcome where
  | ok
  | sysExit (code : Nat)
  | raised
deriving DecidableEq, Repr

/-- The file-system state tracked around the relay path's temporary
artifact. -/
structure FS where
  tempExists : Bool
deriving DecidableEq, Repr

/-- Python's try/finally: run the body, then run the finally block on
the resulting state whatever the body's outcome was (normal return,
SystemExit from _report_error, or a propagating exception). -/
def pyTryFinally (body : FS → FS × ConvOutcome) (finalizer : FS → FS) (s : FS) :
    FS × ConvOutcome :=
  let r := body s
  (finalizer r.1, r.2)

/-- The observable effect of one _convert_via_inkscape call: the
command vectors passed to _run_command, how the call ended, and whether
the temporary raster artifact still exists afterwards. -/
structure ConvEffect where
  cmds : List (List String)
  outcome : ConvOutcome
  tempLeft : Bool
deriving DecidableEq, Repr

/-- The converter _convert_via_inkscape: build the command vector (executable, -f,
source, crop flag), then route on the format.  Native formats append
their export flag (and, for png only, the size flags when a size is
present) and run the renderer once.  Pillow formats run the renderer
once exporting a png to the fixed temporary path (with size flags when
a size is present), then inside try/except/finally import Pillow, open
and save the artifact, report a fatal error if Pillow is missing, and
remove the artifact in the finally block.  Any other format reports an
unsupported-format fatal error.  The size argument models the declared
list-of-two argument (None or [width, height]); drawing_only the
declared boolean. -/
def _convert_via_inkscape (env : Env) (inkscape_path src_svg_path out_img_path : String)
    (file_format : String) (size : Option (String × String)) (drawing_only : Bool) :
    ConvEffect :=
  let cmd := [inkscape_path, "-f", src_svg_path]
  let cmd := cmd ++ (if drawing_only then ["--export-area-drawing"] else ["--export-area-page"])
  if _is_inkscape_format file_format then
    let cmd :=
      if file_format = "png" then
        cmd ++ ["--export-png=" ++ out_img_path] ++
          (match size with
           | some (w, h) => ["-w", w, "-h", h]
           | Option.none => [])
      else if file_format = "pdf" then cmd ++ ["--export-pdf=" ++ out_img_path]
      else if file_format = "ps" then cmd ++ ["--export-ps=" ++ out_img_path]
      else if file_format = "eps" then cmd ++ ["--export-eps=" ++ out_img_path]
      else cmd
    { cmds := [cmd], outcome := ConvOutcome.ok, tempLeft := false }
  else if _is_pillow_format file_format then
    let tempf_path := env.tempDir ++ osSep ++ "mJaAjM.png"
    let cmd := cmd ++ ["--export-png=" ++ tempf_path] ++
      (match size with
       | some (w, h) => ["-w", w, "-h", h]
       | Option.none => [])
    -- the renderer run writes the temporary artifact
    let fs0 : FS := { tempExists := true }
    let r := pyTryFinally
      (fun s =>
        if env.pilAvailable then
          if env.saveOk then (s, ConvOutcome.ok) else (s, ConvOutcome.raised)
        else
          -- except ImportError: _report_error prints and calls sys.exit(1)
          (s, ConvOutcome.sysExit 1))
      (fun s => { s with tempExists := false })  -- finally: os.remove(tempf_path)
      fs0
    { cmds := [cmd], outcome := r.2, tempLeft := r.1.tempExists }
  else
    -- _report_error(TypeError(...), "Unsupported file format to export: ...")
    { cmds := [], outcome := ConvOutcome.sysExit 1, tempLeft := false }

/-- A Pillow-supported format is never Inkscape-native: the two format
tables are disjoint even up to lowercasing. -/
theorem pillow_not_inkscape {f : String} (h : _is_pillow_format f = true) :
    _is_inkscape_format f = false := by
  rw [_is_pillow_format, List.any_eq_true] at h
  obtain ⟨frm, hm, he⟩ := h
  rw [beq_iff_eq] at he
  by_contra hne
  rw [Bool.not_eq_false, _is_inkscape_format, List.any_eq_true] at hne
  obtain ⟨frm', hm', he'⟩ := hne
  rw [beq_iff_eq] at he'
  rw [he] at he'
  fin_cases hm <;> fin_cases hm' <;> exact absurd he' (by decide)

/-- C4: for every relay-path conversion (format supported by Pillow, so
not renderer-native), the intermediate raster artifact does not remain
after the call, in each of the three cases: Pillow importable and save
succeeding (normal return), Pillow importable but save raising (the
exception propagates, and the finally block has run), and Pillow not
importable (the ImportError handler reports a fatal error, and the
finally block has run before the SystemExit propagates). -/
theorem relay_intermediate_artifact_always_removed
    (tmp ipp inkscape_path src out fmt : String)
    (size : Option (String × String)) (d sv : Bool)
    (h : _is_pillow_format fmt = true) :
    ((_convert_via_inkscape ⟨true, true, tmp, ipp⟩ inkscape_path src out fmt size d).tempLeft = false
      ∧ (_convert_via_inkscape ⟨true, true, tmp, ipp⟩ inkscape_path src out fmt size d).outcome
          = ConvOutcome.ok)
    ∧ ((_convert_via_inkscape ⟨true, false, tmp, ipp⟩ inkscape_path src out fmt size d).tempLeft = false
      ∧ (_convert_via_inkscape ⟨true, false, tmp, ipp⟩ inkscape_path src out fmt size d).outcome
          = ConvOutcome.raised)
    ∧ ((_convert_via_inkscape ⟨false, sv, tmp, ipp⟩ inkscape_path src out fmt size d).tempLeft = false
      ∧ (_convert_via_inkscape ⟨false, sv, tmp, ipp⟩ inkscape_path src out fmt size d).outcome
          = ConvOutcome.sysExit 1) := by
  have hn := pillow_not_inkscape h
  simp [_convert_via_inkscape, h, hn, pyTryFinally]

/-- Witness for relay_intermediate_artifact_always_removed at the gif
format. -/
theorem relay_intermediate_artifact_always_removed_witness :
    _is_pillow_format "gif" = true
    ∧ ((_convert_via_inkscape ⟨true, true, "/tmp", "ink"⟩ "ink" "a.svg" "a.gif" "gif"
          Option.none true).tempLeft = false
      ∧ (_convert_via_inkscape ⟨true, true, "/tmp", "ink"⟩ "ink" "a.svg" "a.gif" "gif"
          Option.none true).outcome = ConvOutcome.ok) :=
  ⟨by decide,
   (relay_intermediate_artifact_always_removed "/tmp" "ink" "ink" "a.svg" "a.gif" "gif"
      Option.none true false (by decide)).1⟩

/-- C5: size-flag handling of the command vector.  With a present size:
the png native export appends the -w and -h flags; the pdf, ps and eps
native exports append no size flags and produce the same command vector
as with no size at all (the size is silently dropped); every relay
(Pillow) export appends the -w and -h flags to the intermediate png export.
With an absent size, no -w and -h flags appear on the png path or the relay
path either (and the unsupported path runs no command at all). -/
theorem size_flag_handling (env : Env) (inkscape_path src out w h : String) (d : Bool) :
    ((_convert_via_inkscape env inkscape_path src out "png" (some (w, h)) d).cmds
      = [[inkscape_path, "-f", src]
          ++ (if d then ["--export-area-drawing"] else ["--export-area-page"])
          ++ ["--export-png=" ++ out] ++ ["-w", w, "-h", h]])
    ∧ (∀ fmt : String, fmt = "pdf" ∨ fmt = "ps" ∨ fmt = "eps" →
        (_convert_via_inkscape env inkscape_path src out fmt (some (w, h)) d).cmds
          = [[inkscape_path, "-f", src]
              ++ (if d then ["--export-area-drawing"] else ["--export-area-page"])
              ++ ["--export-" ++ fmt ++ "=" ++ out]]
        ∧ (_convert_via_inkscape env inkscape_path src out fmt (some (w, h)) d).cmds
            = (_convert_via_inkscape env inkscape_path src out fmt Option.none d).cmds)
    ∧ (∀ fmt : String, _is_pillow_format fmt = true →
        (_convert_via_inkscape env inkscape_path src out fmt (some (w, h)) d).cmds
          = [[inkscape_path, "-f", src]
              ++ (if d then ["--export-area-drawing"] else ["--export-area-page"])
              ++ ["--export-png=" ++ (env.tempDir ++ osSep ++ "mJaAjM.png")] ++ ["-w", w, "-h", h]])
    ∧ ((_convert_via_inkscape env inkscape_path src out "png" Option.none d).cmds
        = [[inkscape_path, "-f", src]
            ++ (if d then ["--export-area-drawing"] else ["--export-area-page"])
            ++ ["--export-png=" ++ out]])
    ∧ (∀ fmt : String, _is_pillow_format fmt = true →
        (_convert_via_inkscape env inkscape_path src out fmt Option.none d).cmds
          = [[inkscape_path, "-f", src]
              ++ (if d then ["--export-area-drawing"] else ["--export-area-page"])
              ++ ["--export-png=" ++ (env.tempDir ++ osSep ++ "mJaAjM.png")]])
    ∧ (∀ fmt : String, _is_inkscape_format fmt = false → _is_pillow_format fmt = false →
        (_convert_via_inkscape env inkscape_path src out fmt (some (w, h)) d).cmds = []
        ∧ (_convert_via_inkscape env inkscape_path src out fmt Option.none d).cmds = []) := by
  refine ⟨?_, ?_, ?_, ?_, ?_, ?_⟩
  · simp [_convert_via_inkscape, show _is_inkscape_format "png" = true by decide]
  · rintro fmt (rfl | rfl | rfl) <;>
      simp [_convert_via_inkscape, show _is_inkscape_format "pdf" = true by decide,
        show _is_inkscape_format "ps" = true by decide,
        show _is_inkscape_format "eps" = true by decide]
  · intro fmt hp
    have hn := pillow_not_inkscape hp
    simp [_convert_via_inkscape, hp, hn]
  · simp [_convert_via_inkscape, show _is_inkscape_format "png" = true by decide]
  · intro fmt hp
    have hn := pillow_not_inkscape hp
    simp [_convert_via_inkscape, hp, hn]
  · intro fmt hn hp
    simp [_convert_via_inkscape, hn, hp]

/-- Witness for size_flag_handling: the pdf branch at concrete inputs
drops the size, and the gif relay branch keeps it. -/
theorem size_flag_handling_witness :
    (("pdf" : String) = "pdf" ∨ ("pdf" : String) = "ps" ∨ ("pdf" : String) = "eps")
    ∧ ((_convert_via_inkscape ⟨true, true, "/tmp", "i"⟩ "i" "a.svg" "a.pdf" "pdf"
          (some ("3", "4")) true).cmds
        = [["i", "-f", "a.svg"]
            ++ (if true then ["--export-area-drawing"] else ["--export-area-page"])
            ++ ["--export-" ++ "pdf" ++ "=" ++ "a.pdf"]]
      ∧ (_convert_via_inkscape ⟨true, true, "/tmp", "i"⟩ "i" "a.svg" "a.pdf" "pdf"
          (some ("3", "4")) true).cmds
        = (_convert_via_inkscape ⟨true, true, "/tmp", "i"⟩ "i" "a.svg" "a.pdf" "pdf"
            Option.none true).cmds)
    ∧ (_convert_via_inkscape ⟨true, true, "/tmp", "i"⟩ "i" "a.svg" "a.gif" "gif"
          (some ("3", "4")) true).cmds
        = [["i", "-f", "a.svg"]
            ++ (if true then ["--export-area-drawing"] else ["--export-area-page"])
            ++ ["--export-png=" ++ ((Env.mk true true "/tmp" "i").tempDir ++ osSep ++ "mJaAjM.png")]
            ++ ["-w", "3", "-h", "4"]] :=
  ⟨Or.inl rfl,
   (size_flag_handling ⟨true, true, "/tmp", "i"⟩ "i" "a.svg" "a.pdf" "3" "4" true).2.1
      "pdf" (Or.inl rfl),
   (size_flag_handling ⟨true, true, "/tmp", "i"⟩ "i" "a.svg" "a.gif" "3" "4" true).2.2.1
      "gif" (by decide)⟩

/-- C9: a format that case-insensitively equals a renderer-native format
but is not written exactly in lowercase (so it differs from its own
lowercasing) is routed to the native branch, yet matches none of the
four exact-lowercase format tests: the command vector keeps only the
executable, -f, the source path and the crop flag — no export flag, no
output path, no size flags — the renderer is invoked with that
incomplete command, and the call returns normally. -/
theorem mixed_case_native_runs_incomplete_command (env : Env)
    (inkscape_path src out fmt : String) (size : Option (String × String)) (d : Bool)
    (h1 : _is_inkscape_format fmt = true) (h2 : fmt ≠ pyLower fmt) :
    (_convert_via_inkscape env inkscape_path src out fmt size d).cmds
      = [[inkscape_path, "-f", src]
          ++ (if d then ["--export-area-drawing"] else ["--export-area-page"])]
    ∧ (_convert_via_inkscape env inkscape_path src out fmt size d).outcome = ConvOutcome.ok
    ∧ (_convert_via_inkscape env inkscape_path src out fmt size d).tempLeft = false := by
  have hpng : fmt ≠ "png" := by intro he; subst he; exact h2 (by decide)
  have hpdf : fmt ≠ "pdf" := by intro he; subst he; exact h2 (by decide)
  have hps : fmt ≠ "ps" := by intro he; subst he; exact h2 (by decide)
  have heps : fmt ≠ "eps" := by intro he; subst he; exact h2 (by decide)
  simp [_convert_via_inkscape, h1, hpng, hpdf, hps, heps]

/-- Witness for mixed_case_native_runs_incomplete_command at PNG. -/
theorem mixed_case_native_runs_incomplete_command_witness :
    _is_inkscape_format "PNG" = true ∧ ("PNG" : String) ≠ pyLower "PNG"
    ∧ (_convert_via_inkscape ⟨true, true, "/tmp", "i"⟩ "i" "a.svg" "a.PNG" "PNG"
          (some ("3", "4")) true).cmds
        = [["i", "-f", "a.svg"]
            ++ (if true then ["--export-area-drawing"] else ["--export-area-page"])]
    ∧ (_convert_via_inkscape ⟨true, true, "/tmp", "i"⟩ "i" "a.svg" "a.PNG" "PNG"
          (some ("3", "4")) true).outcome = ConvOutcome.ok :=
  ⟨by decide, by decide,
   ((mixed_case_native_runs_incomplete_command ⟨true, true, "/tmp", "i"⟩ "i" "a.svg" "a.PNG"
      "PNG" (some ("3", "4")) true (by decide) (by decide)).1),
   ((mixed_case_native_runs_incomplete_command ⟨true, true, "/tmp", "i"⟩ "i" "a.svg" "a.PNG"
      "PNG" (some ("3", "4")) true (by decide) (by decide)).2.1)⟩

/-! ## The batch loop (export_svg) -/

/-- The parsed JSON rule document: a dictionary from file stems (or the
reserved _globalrule_ key) to rule blocks, modelled as an association
list. -/
abbrev Rules := List (String × Block)

/-- Dictionary lookup in the rule document. -/
def dictGet (rules : Rules) (k : String) : Option Block :=
  (List.find? (fun kv => kv.1 == k) rules).map (fun kv => kv.2)

/-- The in-place effect of calling curated_param on the block stored
under a key: the stored block is replaced by its curated form (the
Python call mutates the dictionary entry through the shared reference). -/
def curateKey (rules : Rules) (k : String) : Rules :=
  List.map (fun kv => if kv.1 == k then (kv.1, curated_param kv.2) else kv) rules

/-- The conversion part of one iteration of export_svg's loop, taking
the rule document as it stands after the local block was curated:
build local_param, resolve the three fields against
[local_param, supplied_param, global_param, def_param], and call
_convert_via_inkscape with the resolved format, size and drawing_only
and with the source and output paths derived from the stem and format.
Returns the conversion effect and the status line reported on success.
A resolved format that is not a string would make the script fail on
string concatenation; this is modelled as a propagating exception.
The resolved size reaching the converter is either None or a
two-element list (the converter's documented argument type); any other
resolved value is modelled as an absent size. -/
def stepConvert (env : Env) (inkscape_path src_dir out_dir : String)
    (supplied_param global_param : Block) (rule_data : Rules) (svg_file : String) :
    ConvEffect × String :=
  let local_param := (dictGet rule_data svg_file).getD emptyBlock
  let param_blocks := [local_param, supplied_param, global_param, def_param]
  match lookupFirst Field.format param_blocks with
  | some (PyVal.str fmt) =>
    let size :=
      match lookupFirst Field.size param_blocks with
      | some (PyVal.pair w h) => some (w, h)
      | _ => Option.none
    let drawing := PyVal.truthy ((lookupFirst Field.drawing_only param_blocks).getD PyVal.none)
    (_convert_via_inkscape env inkscape_path (src_dir ++ osSep ++ svg_file ++ ".svg")
        (out_dir ++ osSep ++ svg_file ++ "." ++ fmt) fmt size drawing,
     "Saved " ++ svg_file ++ "." ++ fmt)
  | _ => ({ cmds := [], outcome := ConvOutcome.raised, tempLeft := false }, "")

/-- One iteration of export_svg's loop: curate the per-file block in
place when the stem has one (mutating the rule document), then resolve
and convert.  Returns the rule document after the iteration together
with the conversion effect and status line. -/
def stepFile (env : Env) (inkscape_path src_dir out_dir : String)
    (supplied_param global_param : Block) (rule_data : Rules) (svg_file : String) :
    Rules × ConvEffect × String :=
  let rule_data' :=
    if (dictGet rule_data svg_file).isSome then curateKey rule_data svg_file else rule_data
  (rule_data', stepConvert env inkscape_path src_dir out_dir supplied_param global_param
    rule_data' svg_file)

/-- How a batch run ends: Done reached with the given success status
lines, or the process terminated by sys.exit with the given status
mid-batch, or an uncaught exception propagated mid-batch.  In the two
abort cases the status lines are those of the files already converted. -/
inductive BatchOutcome where
  | done (saved : List String)
  | exited (code : Nat) (saved : List String)
  | raised (saved : List String)
deriving DecidableEq, Repr

/-- The per-file loop of export_svg, threading the (possibly mutated)
rule document and accumulating success status lines (most recent
first); a sys.exit or an uncaught exception inside a conversion ends
the process, leaving the remaining files unprocessed. -/
def batchLoop (env : Env) (inkscape_path src_dir out_dir : String)
    (supplied_param global_param : Block) :
    List String → Rules → List String → BatchOutcome × Rules
  | [], rule_data, saved => (BatchOutcome.done saved.reverse, rule_data)
  | svg_file :: rest, rule_data, saved =>
    let r := stepFile env inkscape_path src_dir out_dir supplied_param global_param
      rule_data svg_file
    match r.2.1.outcome with
    | ConvOutcome.ok =>
      batchLoop env inkscape_path src_dir out_dir supplied_param global_param
        rest r.1 (r.2.2 :: saved)
    | ConvOutcome.sysExit c => (BatchOutcome.exited c saved.reverse, r.1)
    | ConvOutcome.raised => (BatchOutcome.raised saved.reverse, r.1)

/-- export_svg after its precondition checks (directories, rules file
and renderer path are collaborator concerns): curate the _globalrule_
block in place when present (mutating the rule document), build
global_param and supplied_param, and run the per-file loop over the
discovered stems.  Returns the batch outcome and the rule document as
it stands afterwards. -/
def export_svg (env : Env) (svg_files : List String) (rule_data : Rules)
    (file_format : Option String) (size : Option (String × String))
    (drawing_only : Option Bool) (inkscape_path src_dir out_dir : String) :
    BatchOutcome × Rules :=
  let rule_data1 :=
    if (dictGet rule_data "_globalrule_").isSome then curateKey rule_data "_globalrule_"
    else rule_data
  let global_param := (dictGet rule_data1 "_globalrule_").getD emptyBlock
  let supplied_param := buildSupplied size file_format drawing_only
  batchLoop env inkscape_path src_dir out_dir supplied_param global_param
    svg_files rule_data1 []

/-- C2 counterexample: in a batch of stems a then b where the rules
give a the unsupported format webp and b has a valid format (the
default png), the unsupported-format error for a terminates the whole
process with exit status 1: no file is reported saved, and b — which
alone would have been exported as b.png — is never attempted.  One
file's conversion failure does abort the batch. -/
theorem batch_not_isolated_counterexample :
    (export_svg ⟨true, true, "/tmp", "ink"⟩ ["a", "b"]
        [("a", { format := some (PyVal.str "webp") })]
        Option.none Option.none Option.none "ink" "s" "o").1
      = BatchOutcome.exited 1 []
    ∧ (export_svg ⟨true, true, "/tmp", "ink"⟩ ["b"] []
        Option.none Option.none Option.none "ink" "s" "o").1
      = BatchOutcome.done ["Saved b.png"] := by
  decide

/-- The batch loop aborts at the first stem governed by an unsupported
format: every earlier stem (not governed by any rule, hence exported as
png) is reported saved, then the unsupported-format error exits the
process with status 1, leaving the rule document as it was. -/
theorem batchLoop_unsupported_aux (env : Env) (ip sd od : String)
    (bad badFmt : String) (drawing_only : Option Bool) (post : List String)
    (hN : _is_inkscape_format badFmt = false) (hP : _is_pillow_format badFmt = false)
    (pre : List String) :
    ∀ saved : List String, (∀ f ∈ pre, f ≠ bad) →
      batchLoop env ip sd od (buildSupplied Option.none Option.none drawing_only) emptyBlock
          (pre ++ bad :: post) [(bad, { format := some (PyVal.str badFmt) })] saved
        = (BatchOutcome.exited 1
            (saved.reverse ++ pre.map fun f => "Saved " ++ f ++ ".png"),
           [(bad, { format := some (PyVal.str badFmt) })]) := by
  induction pre with
  | nil =>
    intro saved _
    simp [batchLoop, stepFile, stepConvert, dictGet, curateKey, curated_param,
      lookupFirst, Block.get, emptyBlock, buildSupplied, def_param,
      _convert_via_inkscape, hN, hP]
  | cons f pre' ih =>
    intro saved hpre
    have hf : f ≠ bad := hpre f (List.mem_cons_self _ _)
    have hbf : (bad == f) = false := beq_eq_false_iff_ne.mpr (Ne.symm hf)
    have hrec := ih (("Saved " ++ f ++ ".png") :: saved)
      (fun x hx => hpre x (List.mem_cons_of_mem _ hx))
    have hpng : _is_inkscape_format "png" = true := by decide
    have hstr : ("Saved " ++ f ++ "." ++ "png" : String) = "Saved " ++ f ++ ".png" := by
      rw [String.append_assoc]
      exact congrArg (fun t => "Saved " ++ f ++ t) (by decide : ("." ++ "png" : String) = ".png")
    simp only [List.cons_append, batchLoop, stepFile, stepConvert, dictGet,
      List.find?, hbf, lookupFirst, Block.get, emptyBlock, buildSupplied,
      def_param, _convert_via_inkscape, hpng, Option.getD_none, Option.isSome_none,
      Option.map_none', List.map_cons]
    simp only [buildSupplied, emptyBlock, Option.map_none'] at hrec
    simp [hstr, hrec]

/-- C2 amended: conversion failure is not isolated.  In a batch whose
stems are pre ++ bad :: post, where the rule document maps only the bad
stem to an unsupported format (and the other files, not named by any
rule, resolve to the default png), every file before the bad one is
converted and reported saved, and then the unsupported-format error
terminates the whole process with exit status 1 — the files after the
bad one are never attempted. -/
theorem batch_aborts_at_first_unsupported (env : Env) (pre post : List String)
    (bad badFmt : String) (drawing_only : Option Bool) (ip sd od : String)
    (hpre : ∀ f ∈ pre, f ≠ bad)
    (hbg : bad ≠ "_globalrule_")
    (hN : _is_inkscape_format badFmt = false) (hP : _is_pillow_format badFmt = false) :
    export_svg env (pre ++ bad :: post) [(bad, { format := some (PyVal.str badFmt) })]
        Option.none Option.none drawing_only ip sd od
      = (BatchOutcome.exited 1 (pre.map fun f => "Saved " ++ f ++ ".png"),
         [(bad, { format := some (PyVal.str badFmt) })]) := by
  have hbg' : (bad == "_globalrule_") = false := beq_eq_false_iff_ne.mpr hbg
  have h := batchLoop_unsupported_aux env ip sd od bad badFmt drawing_only post hN hP pre
    [] hpre
  simp only [export_svg, dictGet, List.find?, hbg', Option.map, Option.isSome]
  simpa using h

/-- Witness for batch_aborts_at_first_unsupported: one good file then
the bad one. -/
theorem batch_aborts_at_first_unsupported_witness :
    export_svg ⟨true, true, "/tmp", "ink"⟩ (["b"] ++ "a" :: []) [("a", { format := some (PyVal.str "webp") })]
        Option.none Option.none Option.none "ink" "s" "o"
      = (BatchOutcome.exited 1 (["b"].map fun f => "Saved " ++ f ++ ".png"),
         [("a", { format := some (PyVal.str "webp") })]) :=
  batch_aborts_at_first_unsupported ⟨true, true, "/tmp", "ink"⟩ ["b"] [] "a" "webp"
    Option.none "ink" "s" "o" (by decide) (by decide) (by decide) (by decide)

/-- C8 counterexample: a rule document whose block for stem a carries
the size sentinel "default" is mutated by processing: after the batch,
the stored block's size is None, not the original string — the rule
document is not read-only after load, and the per-file input block was
changed by resolution. -/
theorem rule_document_mutated_counterexample :
    (export_svg ⟨true, true, "/tmp", "ink"⟩ ["a"]
        [("a", { size := some (PyVal.str "default") })]
        Option.none Option.none Option.none "ink" "s" "o").2
      = [("a", { size := some PyVal.none })]
    ∧ ([("a", ({ size := some PyVal.none } : Block))] : List (String × Block))
        ≠ [("a", { size := some (PyVal.str "default") })] := by
  decide

/-- If no entry of the rule document carries the "default" size
sentinel, curating any key leaves the document unchanged. -/
theorem curateKey_eq_self {rules : Rules} (k : String)
    (h : ∀ kv ∈ rules, kv.2.size ≠ some (PyVal.str "default")) :
    curateKey rules k = rules := by
  induction rules with
  | nil => rfl
  | cons kv rest ih =>
    have h1 : curated_param kv.2 = kv.2 :=
      curated_param_eq_self (h kv (List.mem_cons_self _ _))
    have h2 : curateKey rest k = rest :=
      ih (fun x hx => h x (List.mem_cons_of_mem _ hx))
    unfold curateKey at h2 ⊢
    simp only [List.map_cons, h2]
    by_cases hk : (kv.1 == k) = true <;> simp [hk, h1]

/-- The batch loop leaves a sentinel-free rule document unchanged, in
every termination mode. -/
theorem batchLoop_preserves_rules (env : Env) (ip sd od : String)
    (supplied_param global_param : Block) (files : List String) :
    ∀ (rules : Rules) (saved : List String),
      (∀ kv ∈ rules, kv.2.size ≠ some (PyVal.str "default")) →
      (batchLoop env ip sd od supplied_param global_param files rules saved).2 = rules := by
  induction files with
  | nil => intro rules saved _; rfl
  | cons f rest ih =>
    intro rules saved h
    have hr : (if (dictGet rules f).isSome then curateKey rules f else rules) = rules := by
      split
      · exact curateKey_eq_self f h
      · rfl
    simp only [batchLoop, stepFile, hr]
    cases ho : (stepConvert env ip sd od supplied_param global_param rules f).1.outcome with
    | ok => simp only [ho]; exact ih rules _ h
    | sysExit c => simp only [ho]
    | raised => simp only [ho]

/-- C8 amended: the precedence scan itself reads but never writes its
blocks, and the rule document is unchanged across the batch provided no
rule block's size is the literal string "default"; a visited block that
does carry the "default" sentinel is rewritten in place (its size
becomes None) when the global block is built or when its file is
processed. -/
theorem rule_document_unchanged_without_sentinel (env : Env)
    (files : List String) (rules : Rules) (file_format : Option String)
    (size : Option (String × String)) (drawing_only : Option Bool)
    (ip sd od : String)
    (h : ∀ kv ∈ rules, kv.2.size ≠ some (PyVal.str "default")) :
    (export_svg env files rules file_format size drawing_only ip sd od).2 = rules := by
  have h1 : (if (dictGet rules "_globalrule_").isSome then curateKey rules "_globalrule_"
      else rules) = rules := by
    split
    · exact curateKey_eq_self _ h
    · rfl
  simp only [export_svg, h1]
  exact batchLoop_preserves_rules env ip sd od _ _ files rules [] h

/-- Witness for rule_document_unchanged_without_sentinel at a concrete
sentinel-free rule document. -/
theorem rule_document_unchanged_without_sentinel_witness :
    (export_svg ⟨true, true, "/tmp", "ink"⟩ ["a"]
        [("a", { size := some (PyVal.pair "7" "8") })]
        Option.none Option.none Option.none "ink" "s" "o").2
      = [("a", { size := some (PyVal.pair "7" "8") })] :=
  rule_document_unchanged_without_sentinel ⟨true, true, "/tmp", "ink"⟩ ["a"]
    [("a", { size := some (PyVal.pair "7" "8") })] Option.none Option.none Option.none
    "ink" "s" "o" (by decide)


/-! ## The command-line entry point (the module's main block) -/

/-- Model of Python's str.split(",") on the character list: cut at each
comma, keeping empty pieces (so "50," yields two pieces and "" yields
one empty piece), exactly as str.split with an explicit separator. -/
def pySplitCommaAux : List Char → List Char → List (List Char)
  | [], acc => [acc.reverse]
  | c :: rest, acc =>
    if c = ',' then acc.reverse :: pySplitCommaAux rest []
    else pySplitCommaAux rest (c :: acc)

/-- Python's s.split(",") as used by the main block on the --size
value. -/
def pySplitComma (s : String) : List String :=
  (pySplitCommaAux s.data []).map String.mk

/-- The parsed argparse namespace: the two positional arguments and the
five optional flags, an absent flag being None. -/
structure Args where
  srcdir : String
  outdir : String
  rules : Option String := Option.none
  size : Option String := Option.none
  format : Option String := Option.none
  drawing_only : Option String := Option.none
  inkscape : Option String := Option.none
deriving DecidableEq, Repr

/-- Python truthiness of an optional string argument: None and the
empty string are falsy. -/
def argTruthy : Option String → Bool
  | Option.none => false
  | some s => !(s == "")

/-- The inkscape argument handling of the main block: the flag's value
when truthy, else the string "default". -/
def inkscapeOf (args : Args) : String :=
  if argTruthy args.inkscape then args.inkscape.getD "default" else "default"

/-- The --drawing_only handling of the main block: f_drawing_only
starts True; a truthy value is lowercased and y/yes maps to True, n/no
to False, anything else to None (the error path). -/
def parseDrawOnly : Option String → Option Bool
  | some s =>
    if s == "" then some true
    else
      let draw := pyLower s
      if draw == "y" || draw == "yes" then some true
      else if draw == "n" || draw == "no" then some false
      else Option.none
  | Option.none => some true

/-- How the main block's argument processing ends: a sys.exit() with
the given status and printed messages before export_svg is called, or
a call of export_svg with the given file_format, size, drawing_only
and inkscape arguments. -/
inductive MainStep where
  | earlyExit (code : Nat) (msgs : List String)
  | proceed (file_format : Option String) (size : Option (String × String))
      (drawing_only : Bool) (inkscape : String)
deriving DecidableEq, Repr

/-- The main block before export_svg: process --drawing_only (a bad
token prints a message and calls sys.exit(), which — taking no
argument — exits with status 0); then process --size (a truthy value
that does not split on commas into exactly two tokens prints a message
and calls sys.exit() likewise); then call export_svg. -/
def mainPrelude (args : Args) : MainStep :=
  match parseDrawOnly args.drawing_only with
  | Option.none =>
    MainStep.earlyExit 0
      ["Wrong argument supplied for --drawing_only parameter! \nUse --help or -h to get help"]
  | some f_drawing_only =>
    match args.size with
    | some s =>
      if s == "" then MainStep.proceed args.format Option.none f_drawing_only (inkscapeOf args)
      else
        match pySplitComma s with
        | [w, h] => MainStep.proceed args.format (some (w, h)) f_drawing_only (inkscapeOf args)
        | _ =>
          MainStep.earlyExit 0
            ["Wrong argument supplied for --size parameter! \nUse --help or -h to get help"]
    | Option.none => MainStep.proceed args.format Option.none f_drawing_only (inkscapeOf args)

/-- The whole command-line run: the main prelude, then (unless it
exited) export_svg over the discovered stems and parsed rule document,
with the renderer path resolved by the environment. -/
def mainRun (env : Env) (svg_files : List String) (rule_data : Rules) (args : Args) :
    BatchOutcome :=
  match mainPrelude args with
  | MainStep.earlyExit c _ => BatchOutcome.exited c []
  | MainStep.proceed file_format size drawing_only _ =>
    (export_svg env svg_files rule_data file_format size (some drawing_only)
      env.inkscapePath args.srcdir args.outdir).1

/-- A malformed --drawing_only argument in the claim's sense, truthy
so that the main block inspects it: a non-empty token that is not one
of y, yes, n, no case-insensitively. -/
def malformedDrawingArg : Option String → Prop
  | some s => s ≠ "" ∧ pyLower s ∉ (["y", "yes", "n", "no"] : List String)
  | Option.none => False

/-- A malformed --size argument in the claim's sense, truthy so that
the main block inspects it: a non-empty value that does not split on
commas into exactly two tokens. -/
def malformedSizeArg : Option String → Prop
  | some s => s ≠ "" ∧ (pySplitComma s).length ≠ 2
  | Option.none => False

/-- C6 counterexample: invoking the entry point with the malformed
--size argument "50" (one token) prints a message and terminates the
process before any file is converted, but with exit status 0 — the
bare sys.exit() call passes no status — not with a non-zero status as
the claim states.  Moreover the malformed --drawing_only argument ""
(the empty string, also not one of the four accepted tokens) is falsy,
so the check is skipped altogether and the batch proceeds. -/
theorem cli_malformed_exit_status_counterexample :
    mainPrelude { srcdir := "s", outdir := "o", size := some "50" }
      = MainStep.earlyExit 0
          ["Wrong argument supplied for --size parameter! \nUse --help or -h to get help"]
    ∧ mainRun ⟨true, true, "/tmp", "ink"⟩ ["a"] []
        { srcdir := "s", outdir := "o", size := some "50" }
      = BatchOutcome.exited 0 []
    ∧ mainPrelude { srcdir := "s", outdir := "o", drawing_only := some "" }
      = MainStep.proceed Option.none Option.none true "default" := by
  decide

/-- C6 amended: a truthy (non-empty) malformed --drawing_only or
--size argument makes the entry point print a message and terminate
the process before any file is converted, with exit status zero (the
bare sys.exit() call passes no status); an empty-string argument is
falsy and is treated as if the flag were absent. -/
theorem cli_malformed_args_exit_before_batch (env : Env) (svg_files : List String)
    (rule_data : Rules) (args : Args)
    (h : malformedDrawingArg args.drawing_only ∨ malformedSizeArg args.size) :
    ∃ msgs, mainPrelude args = MainStep.earlyExit 0 msgs ∧ msgs ≠ []
      ∧ mainRun env svg_files rule_data args = BatchOutcome.exited 0 [] := by
  have hstep : ∃ msgs, msgs ≠ [] ∧ mainPrelude args = MainStep.earlyExit 0 msgs := by
    rcases h with hd | hs
    · match hargs : args.drawing_only with
      | Option.none => rw [hargs] at hd; exact absurd hd not_false
      | some s =>
        rw [hargs] at hd
        obtain ⟨hne, hmem⟩ := hd
        have h0 : (s == "") = false := beq_eq_false_iff_ne.mpr hne
        have h1 : (pyLower s == "y") = false :=
          beq_eq_false_iff_ne.mpr (fun he => hmem (by rw [he]; decide))
        have h2 : (pyLower s == "yes") = false :=
          beq_eq_false_iff_ne.mpr (fun he => hmem (by rw [he]; decide))
        have h3 : (pyLower s == "n") = false :=
          beq_eq_false_iff_ne.mpr (fun he => hmem (by rw [he]; decide))
        have h4 : (pyLower s == "no") = false :=
          beq_eq_false_iff_ne.mpr (fun he => hmem (by rw [he]; decide))
        have hparse : parseDrawOnly args.drawing_only = Option.none := by
          simp [parseDrawOnly, hargs, h0, h1, h2, h3, h4]
        exact ⟨["Wrong argument supplied for --drawing_only parameter! \nUse --help or -h to get help"], by simp, by simp [mainPrelude, hparse]⟩
    · match hargs : args.size with
      | Option.none => rw [hargs] at hs; exact absurd hs not_false
      | some s =>
        rw [hargs] at hs
        obtain ⟨hne, hlen⟩ := hs
        have h0 : (s == "") = false := beq_eq_false_iff_ne.mpr hne
        match hparse : parseDrawOnly args.drawing_only with
        | Option.none => exact ⟨["Wrong argument supplied for --drawing_only parameter! \nUse --help or -h to get help"], by simp, by simp [mainPrelude, hparse]⟩
        | some b =>
          have hsplit : ∀ w v : String, pySplitComma s ≠ [w, v] := by
            intro w v he
            exact hlen (by rw [he]; rfl)
          rcases hcase : pySplitComma s with _ | ⟨w, _ | ⟨v, _ | _⟩⟩
          · exact ⟨["Wrong argument supplied for --size parameter! \nUse --help or -h to get help"], by simp, by simp [mainPrelude, hparse, hargs, h0, hcase]⟩
          · exact ⟨["Wrong argument supplied for --size parameter! \nUse --help or -h to get help"], by simp, by simp [mainPrelude, hparse, hargs, h0, hcase]⟩
          · exact absurd hcase (hsplit w v)
          · exact ⟨["Wrong argument supplied for --size parameter! \nUse --help or -h to get help"], by simp, by simp [mainPrelude, hparse, hargs, h0, hcase]⟩
  obtain ⟨msgs, hne, hpre⟩ := hstep
  exact ⟨msgs, hpre, hne, by simp [mainRun, hpre]⟩

/-- Witness for cli_malformed_args_exit_before_batch at --size "50". -/
theorem cli_malformed_args_exit_before_batch_witness :
    ∃ msgs, mainPrelude { srcdir := "s", outdir := "o", size := some "50" }
        = MainStep.earlyExit 0 msgs ∧ msgs ≠ []
      ∧ mainRun ⟨true, true, "/tmp", "ink"⟩ ["a"] []
          { srcdir := "s", outdir := "o", size := some "50" }
        = BatchOutcome.exited 0 [] :=
  cli_malformed_args_exit_before_batch ⟨true, true, "/tmp", "ink"⟩ ["a"] []
    { srcdir := "s", outdir := "o", size := some "50" }
    (Or.inr ⟨by decide, by decide⟩)

/-- C10: when the entry point is invoked without the --drawing_only
flag, the main block still passes drawing_only = True to export_svg
(f_drawing_only is initialized to True and never cleared), so the
supplied override block always contains drawing_only with value True.
By layer precedence the global rule block's drawing_only can therefore
never be reached: the resolved drawing_only is the per-file rule's
value when that block has one, else True — for every global block g
(the right-hand side below does not depend on g). -/
theorem cli_drawing_only_supplied_masks_global (args : Args) (l g : Block)
    (h : args.drawing_only = Option.none)
    (f : Option String) (s : Option (String × String)) (d : Bool) (i : String)
    (hp : mainPrelude args = MainStep.proceed f s d i) :
    d = true
    ∧ (buildSupplied s f (some d)).drawing_only = some (PyVal.bool true)
    ∧ lookupFirst Field.drawing_only [l, buildSupplied s f (some d), g, def_param]
        = some ((l.drawing_only).getD (PyVal.bool true)) := by
  have hd : d = true := by
    unfold mainPrelude at hp
    rw [h] at hp
    simp only [parseDrawOnly] at hp
    cases hsz : args.size with
    | none =>
      rw [hsz] at hp
      simp only [MainStep.proceed.injEq] at hp
      exact hp.2.2.1.symm
    | some s' =>
      rw [hsz] at hp
      by_cases hse : (s' == "") = true
      · simp only [hse, if_true, MainStep.proceed.injEq] at hp
        exact hp.2.2.1.symm
      · simp only [hse, if_false, Bool.false_eq_true] at hp
        rcases hcase : pySplitComma s' with _ | ⟨w, _ | ⟨v, _ | _⟩⟩ <;> rw [hcase] at hp
        · exact absurd hp (by simp)
        · exact absurd hp (by simp)
        · simp only [MainStep.proceed.injEq] at hp
          exact hp.2.2.1.symm
        · exact absurd hp (by simp)
  subst hd
  refine ⟨rfl, by simp [buildSupplied], ?_⟩
  cases hl : l.drawing_only with
  | none => simp [lookupFirst, Block.get, buildSupplied, hl]
  | some v => simp [lookupFirst, Block.get, hl]

/-- Witness for cli_drawing_only_supplied_masks_global: no
--drawing_only flag, a per-file block without drawing_only and a
global block that sets drawing_only to False — the resolution still
yields True. -/
theorem cli_drawing_only_supplied_masks_global_witness :
    (true : Bool) = true
    ∧ (buildSupplied Option.none Option.none (some true)).drawing_only
        = some (PyVal.bool true)
    ∧ lookupFirst Field.drawing_only
        [{ size := some (PyVal.pair "1" "2") },
         buildSupplied Option.none Option.none (some true),
         { drawing_only := some (PyVal.bool false) }, def_param]
        = some ((({ size := some (PyVal.pair "1" "2") } : Block).drawing_only).getD
            (PyVal.bool true)) :=
  cli_drawing_only_supplied_masks_global { srcdir := "s", outdir := "o" }
    { size := some (PyVal.pair "1" "2") } { drawing_only := some (PyVal.bool false) }
    rfl Option.none Option.none true "default" rfl

end SvgBatchExporter
